import Mathlib

/-!
Shallow embedding of the QwiicRelay-Rust library (src/lib.rs, src/error.rs,
src/verification.rs).  The I2C transport is modelled as an oracle that maps
the history of bus operations and the current operation to a response; each
library function threads the trace of bus operations explicitly.  Sleeps
have no observable effect in this model; elapsed wall-clock time is supplied
by an abstract `clock` function giving the elapsed milliseconds observed at
the timeout check of each loop iteration.
-/

/-- One I2C bus operation, as issued by the library:
`readReg r` is `smbus_read_byte_data(r)`, `writeByte b` is
`smbus_write_byte(b)`, `writeReg r b` is `smbus_write_byte_data(r, b)`. -/
inductive BusOp
  | readReg (reg : Nat)
  | writeByte (b : Nat)
  | writeReg (reg : Nat) (b : Nat)
deriving DecidableEq, Repr

/-- Response of the device to a single bus operation: a byte for successful
reads (ignored for writes), or a transport-level I2C error. -/
inductive I2CResp
  | ok (b : Nat)
  | err
deriving DecidableEq, Repr

/-- A transport oracle: the device's response as a function of the history of
bus operations issued so far and the operation being issued now. -/
abbrev Transport := List BusOp → BusOp → I2CResp

/-- `RelayStatus` from src/lib.rs. -/
inductive RelayStatus
  | Off
  | On
deriving DecidableEq, Repr

/-- `impl From<bool> for RelayStatus`. -/
def RelayStatus.fromBool (value : Bool) : RelayStatus :=
  if value then RelayStatus.On else RelayStatus.Off

/-- `impl From<RelayStatus> for bool`. -/
def RelayStatus.toBool : RelayStatus → Bool
  | RelayStatus.Off => false
  | RelayStatus.On => true

/-- `impl From<u8> for RelayStatus`: any nonzero byte maps to `On`. -/
def RelayStatus.fromByte (value : Nat) : RelayStatus :=
  if value ≠ 0 then RelayStatus.On else RelayStatus.Off

/-- `impl From<RelayStatus> for u8`: the discriminant, `Off = 0`, `On = 1`. -/
def RelayStatus.toByte : RelayStatus → Nat
  | RelayStatus.Off => 0
  | RelayStatus.On => 1

/-- `VerificationMode` from src/verification.rs. -/
inductive VerificationMode
  | Strict
  | Lenient
  | Disabled
deriving DecidableEq, Repr

/-- `VerificationConfig` from src/verification.rs (durations in ms, as in
the `_ms` fields of the source). -/
structure VerificationConfig where
  mode : VerificationMode
  max_retries : Nat
  retry_delay_ms : Nat
  verification_delay_ms : Nat
  timeout_ms : Nat
deriving DecidableEq, Repr

/-- `QwiicRelayConfig` from src/lib.rs. -/
structure QwiicRelayConfig where
  relay_count : Nat
  verification : VerificationConfig
  write_delay_us : Nat
  state_change_delay_ms : Nat
  init_delay_ms : Nat
deriving DecidableEq, Repr

/-- `RelayError` from src/error.rs (the `I2C` payload and the relay-status
payloads are kept only to the extent the claims need them). -/
inductive RelayError
  | I2C
  | StateVerificationFailed (relay_num : Option Nat) (expected : Bool)
      (actual : Bool) (attempts : Nat)
  | VerificationFailed (relay_num : Option Nat) (expected : RelayStatus)
      (attempts : Nat)
  | VerificationTimeout (relay_num : Option Nat) (expected : RelayStatus)
      (timeout_ms : Nat)
  | Timeout (relay_num : Option Nat) (operation : String) (duration_ms : Nat)
  | InvalidConfiguration (msg : String)
  | InvalidRelayNumber (relay_num : Nat) (max_relays : Nat)
  | InvalidI2CAddress (addr : Nat)
deriving DecidableEq, Repr

/-- Uppercase hexadecimal digit, used to render the `InvalidConfiguration`
message of `change_i2c_address` the way the Rust format string does. -/
def hexDigit (n : Nat) : Char :=
  if n < 10 then Char.ofNat (48 + n) else Char.ofNat (55 + n)

/-- Two-digit uppercase hexadecimal rendering of a byte. -/
def hexByte (n : Nat) : String :=
  String.mk [hexDigit (n / 16 % 16), hexDigit (n % 16)]

/-- `smbus_read_byte_data`: issue a register read; a successful response is
truncated to a byte. The attempted operation is recorded in the trace. -/
def smbus_read_byte_data (t : Transport) (trace : List BusOp) (reg : Nat) :
    Except RelayError Nat × List BusOp :=
  match t trace (BusOp.readReg reg) with
  | I2CResp.ok b => (Except.ok (b % 256), trace ++ [BusOp.readReg reg])
  | I2CResp.err => (Except.error RelayError.I2C, trace ++ [BusOp.readReg reg])

/-- `smbus_write_byte`: issue a single-byte command write. -/
def smbus_write_byte (t : Transport) (trace : List BusOp) (b : Nat) :
    Except RelayError Unit × List BusOp :=
  match t trace (BusOp.writeByte (b % 256)) with
  | I2CResp.ok _ => (Except.ok (), trace ++ [BusOp.writeByte (b % 256)])
  | I2CResp.err => (Except.error RelayError.I2C, trace ++ [BusOp.writeByte (b % 256)])

/-- `smbus_write_byte_data`: issue a register write. -/
def smbus_write_byte_data (t : Transport) (trace : List BusOp) (reg b : Nat) :
    Except RelayError Unit × List BusOp :=
  match t trace (BusOp.writeReg (reg % 256) (b % 256)) with
  | I2CResp.ok _ => (Except.ok (), trace ++ [BusOp.writeReg (reg % 256) (b % 256)])
  | I2CResp.err => (Except.error RelayError.I2C, trace ++ [BusOp.writeReg (reg % 256) (b % 256)])

/-- `QwiicRelay::write_byte`: a single-byte write followed by the
`write_delay_us` sleep (no observable effect in this model). -/
def write_byte (t : Transport) (trace : List BusOp) (command : Nat) :
    Except RelayError Unit × List BusOp :=
  smbus_write_byte t trace command

/-- `QwiicRelay::get_relay_state`: reads `0x04 + num` for an explicit relay
number and `0x04` when the relay number is `None`, then maps the byte through
`RelayStatus::from(u8)` and `bool::from(RelayStatus)`. -/
def get_relay_state (t : Transport) (relay_num : Option Nat)
    (trace : List BusOp) : Except RelayError Bool × List BusOp :=
  let read_command : Nat :=
    match relay_num with
    | some num => (0x04 + num) % 256
    | none => 0x04
  match smbus_read_byte_data t trace read_command with
  | (Except.ok temp, tr2) =>
      (Except.ok (RelayStatus.toBool (RelayStatus.fromByte temp)), tr2)
  | (Except.error e, tr2) => (Except.error e, tr2)

/-- `QwiicRelay::get_version`: reads `RelayState::SingleFirmwareVersion`
(register `0x04`). -/
def get_version (t : Transport) (trace : List BusOp) :
    Except RelayError Nat × List BusOp :=
  smbus_read_byte_data t trace 0x04

/-- `QwiicRelay::set_relay_on_unverified`: for an explicit relay number,
read `0x04 + num`; if the status is `Off`, write the toggle command
`Command::DualQuadToggleBase + num`; for `None`, write `RelayState::On`. -/
def set_relay_on_unverified (t : Transport) (relay_num : Option Nat)
    (trace : List BusOp) : Except RelayError Unit × List BusOp :=
  match relay_num with
  | some num =>
      match smbus_read_byte_data t trace ((0x04 + num) % 256) with
      | (Except.error e, tr2) => (Except.error e, tr2)
      | (Except.ok temp, tr2) =>
          if RelayStatus.fromByte temp = RelayStatus.Off then
            write_byte t tr2 ((0x00 + num) % 256)
          else
            (Except.ok (), tr2)
  | none => write_byte t trace 0x01

/-- `QwiicRelay::set_relay_off_unverified`: as `set_relay_on_unverified` but
toggling when the status is `On`, and writing `RelayState::Off` for `None`. -/
def set_relay_off_unverified (t : Transport) (relay_num : Option Nat)
    (trace : List BusOp) : Except RelayError Unit × List BusOp :=
  match relay_num with
  | some num =>
      match smbus_read_byte_data t trace ((0x04 + num) % 256) with
      | (Except.error e, tr2) => (Except.error e, tr2)
      | (Except.ok temp, tr2) =>
          if RelayStatus.fromByte temp = RelayStatus.On then
            write_byte t tr2 ((0x00 + num) % 256)
          else
            (Except.ok (), tr2)
  | none => write_byte t trace 0x00

/-- The body of the `for attempt in 0..=max_retries` loop shared by
`set_relay_on_verified` and `set_relay_off_verified` (the two Rust functions
are identical up to `expected_state` and the operation name).  `fuel` counts
the remaining iterations (initially `max_retries + 1`); `none` models the
`unreachable!` after the loop.  `clock attempt` is the elapsed time observed
at the timeout check of the given iteration.  `attempt` and the `attempts`
error payload are `u8` in the source, so the payload `attempt + 1` is taken
modulo 256 (the release-mode wrap; a debug build panics there). -/
def set_verified_loop (expected : Bool) (operation : String)
    (cfg : VerificationConfig) (clock : Nat → Nat) (t : Transport)
    (relay_num : Option Nat) :
    Nat → Nat → List BusOp → Option (Except RelayError Unit × List BusOp)
  | _attempt, 0, _trace => none
  | attempt, fuel + 1, trace =>
    if cfg.timeout_ms < clock attempt then
      some (Except.error (RelayError.Timeout relay_num operation cfg.timeout_ms),
        trace)
    else
      match (if expected then set_relay_on_unverified t relay_num trace
             else set_relay_off_unverified t relay_num trace) with
      | (Except.error e, tr2) => some (Except.error e, tr2)
      | (Except.ok _, tr2) =>
          match get_relay_state t relay_num tr2 with
          | (Except.ok actual_state, tr3) =>
              if actual_state = expected then
                some (Except.ok (), tr3)
              else if attempt = cfg.max_retries then
                let error := RelayError.StateVerificationFailed relay_num
                  expected actual_state ((attempt + 1) % 256)
                if cfg.mode = VerificationMode.Lenient then
                  some (Except.error error, tr3)
                else
                  some (Except.error error, tr3)
              else
                set_verified_loop expected operation cfg clock t relay_num
                  (attempt + 1) fuel tr3
          | (Except.error e, tr3) =>
              if attempt = cfg.max_retries then
                some (Except.error e, tr3)
              else
                set_verified_loop expected operation cfg clock t relay_num
                  (attempt + 1) fuel tr3

/-- `QwiicRelay::set_relay_on_verified`. -/
def set_relay_on_verified (cfg : VerificationConfig) (clock : Nat → Nat)
    (t : Transport) (relay_num : Option Nat) (trace : List BusOp) :
    Option (Except RelayError Unit × List BusOp) :=
  set_verified_loop true "set_relay_on" cfg clock t relay_num 0
    (cfg.max_retries + 1) trace

/-- `QwiicRelay::set_relay_off_verified`. -/
def set_relay_off_verified (cfg : VerificationConfig) (clock : Nat → Nat)
    (t : Transport) (relay_num : Option Nat) (trace : List BusOp) :
    Option (Except RelayError Unit × List BusOp) :=
  set_verified_loop false "set_relay_off" cfg clock t relay_num 0
    (cfg.max_retries + 1) trace

/-- `QwiicRelay::set_relay_on`: dispatch on the verification mode. -/
def set_relay_on (cfg : QwiicRelayConfig) (clock : Nat → Nat) (t : Transport)
    (relay_num : Option Nat) (trace : List BusOp) :
    Option (Except RelayError Unit × List BusOp) :=
  match cfg.verification.mode with
  | VerificationMode.Disabled => some (set_relay_on_unverified t relay_num trace)
  | _ => set_relay_on_verified cfg.verification clock t relay_num trace

/-- `QwiicRelay::set_relay_off`: dispatch on the verification mode. -/
def set_relay_off (cfg : QwiicRelayConfig) (clock : Nat → Nat) (t : Transport)
    (relay_num : Option Nat) (trace : List BusOp) :
    Option (Except RelayError Unit × List BusOp) :=
  match cfg.verification.mode with
  | VerificationMode.Disabled => some (set_relay_off_unverified t relay_num trace)
  | _ => set_relay_off_verified cfg.verification clock t relay_num trace

/-- `QwiicRelay::set_all_relays_on`: a single write of `Command::TurnAllOn`. -/
def set_all_relays_on (t : Transport) (trace : List BusOp) :
    Except RelayError Unit × List BusOp :=
  write_byte t trace 0x0B

/-- `QwiicRelay::set_all_relays_off`: a single write of `Command::TurnAllOff`. -/
def set_all_relays_off (t : Transport) (trace : List BusOp) :
    Except RelayError Unit × List BusOp :=
  write_byte t trace 0x0A

/-- `QwiicRelay::change_i2c_address`: reject addresses outside
`0x07..=0x78` with `InvalidConfiguration` before touching the bus, otherwise
write the new address under command byte `0xC7`. -/
def change_i2c_address (t : Transport) (trace : List BusOp)
    (new_address : Nat) : Except RelayError Unit × List BusOp :=
  if new_address < 0x07 ∨ 0x78 < new_address then
    (Except.error (RelayError.InvalidConfiguration
      ("I2C address must be between 0x07 and 0x78, got 0x" ++ hexByte new_address)),
      trace)
  else
    smbus_write_byte_data t trace 0xC7 new_address

/-- Whether a bus operation is a register read. -/
def BusOp.isRead : BusOp → Bool
  | BusOp.readReg _ => true
  | _ => false

/-- Whether a bus operation is a write (single-byte command or register). -/
def BusOp.isWrite : BusOp → Bool
  | BusOp.readReg _ => false
  | _ => true

/-- Number of register reads in a trace. -/
def readCount (trace : List BusOp) : Nat :=
  (trace.filter BusOp.isRead).length

/-- Number of writes in a trace. -/
def writeCount (trace : List BusOp) : Nat :=
  (trace.filter BusOp.isWrite).length

/-- Whether an error is the `InvalidRelayNumber` variant. -/
def errIsInvalidRelayNumber : RelayError → Bool
  | RelayError.InvalidRelayNumber _ _ => true
  | _ => false

/-- Whether a result carries the `InvalidRelayNumber` error. -/
def resultIsInvalidRelayNumber {α : Type} : Except RelayError α → Bool
  | Except.error e => errIsInvalidRelayNumber e
  | Except.ok _ => false

/-- The register address `get_relay_state` reads for a given relay identity. -/
def statusReg : Option Nat → Nat
  | some num => (0x04 + num) % 256
  | none => 0x04

/-- The trace ends with a confirming read: its final operation is a read of
the status register for `relay_num`, and the transport's response to that
read at that point is a byte mapping to `expected`. -/
def confirmingRead (t : Transport) (relay_num : Option Nat)
    (out : List BusOp) (expected : Bool) : Prop :=
  ∃ pre b, out = pre ++ [BusOp.readReg (statusReg relay_num)] ∧
    t pre (BusOp.readReg (statusReg relay_num)) = I2CResp.ok b ∧
    RelayStatus.toBool (RelayStatus.fromByte (b % 256)) = expected

/-- The state of relay `num` on a device that starts all-off and echoes every
toggle command `0x00 + num` it is written. -/
def relayStateAfter (num : Nat) (trace : List BusOp) : Bool :=
  trace.foldl
    (fun s op =>
      match op with
      | BusOp.writeByte b => if b = num then !s else s
      | _ => s)
    false

/-- A test device that answers every read with byte 0 and accepts every
write. -/
def zeroTransport : Transport := fun _ _ => I2CResp.ok 0

/-- A test device that answers every read with byte 0 and fails every
write with a transport error. -/
def writeFailTransport : Transport := fun _ op =>
  match op with
  | BusOp.readReg _ => I2CResp.ok 0
  | _ => I2CResp.err

/-- Whether the most recent operation of a trace is a single-byte write. -/
def lastIsWrite (trace : List BusOp) : Bool :=
  match trace.getLast? with
  | some (BusOp.writeByte _) => true
  | _ => false

/-- A test device whose reads fail with a transport error exactly when they
immediately follow a write (i.e. on the verification read-back of each
attempt), answer byte 0 otherwise, and whose writes all succeed. -/
def verifyReadFailTransport : Transport := fun trace op =>
  match op with
  | BusOp.readReg _ => if lastIsWrite trace then I2CResp.err else I2CResp.ok 0
  | _ => I2CResp.ok 0

/-- A test device that echoes toggles: relay `n` starts off, every written
toggle command `0x00 + n` flips it, and reading register `0x04 + n` reports
its current state as byte 1 or 0. -/
def echoTransport : Transport := fun trace op =>
  match op with
  | BusOp.readReg reg =>
      I2CResp.ok (if relayStateAfter (reg - 4) trace then 1 else 0)
  | _ => I2CResp.ok 0

/-- A clock under which no time ever elapses. -/
def zeroClock : Nat → Nat := fun _ => 0

/-- The `VerificationConfig::disabled()` preset. -/
def disabledVerification : VerificationConfig :=
  { mode := VerificationMode.Disabled, max_retries := 0, retry_delay_ms := 0,
    verification_delay_ms := 0, timeout_ms := 0 }

/-- The `VerificationConfig::default()` preset (`strict()`). -/
def strictVerification : VerificationConfig :=
  { mode := VerificationMode.Strict, max_retries := 3, retry_delay_ms := 50,
    verification_delay_ms := 20, timeout_ms := 1000 }

/-- A 4-relay `QwiicRelayConfig` with verification disabled. -/
def disabledConfig : QwiicRelayConfig :=
  { relay_count := 4, verification := disabledVerification,
    write_delay_us := 10, state_change_delay_ms := 10, init_delay_ms := 200 }

/-- `QwiicRelayConfig::default()`: 4 relays, strict verification, standard
timing. -/
def defaultConfig : QwiicRelayConfig :=
  { relay_count := 4, verification := strictVerification,
    write_delay_us := 10, state_change_delay_ms := 10, init_delay_ms := 200 }

/-- The bus operations of one full verified-set attempt on relay `num` that
pre-reads, toggles, and reads back. -/
def attemptOps (num : Nat) : List BusOp :=
  [BusOp.readReg ((0x04 + num) % 256), BusOp.writeByte (num % 256),
    BusOp.readReg ((0x04 + num) % 256)]

/-- `n` repetitions of a block of bus operations. -/
def repeatOps (l : List BusOp) : Nat → List BusOp
  | 0 => []
  | n + 1 => l ++ repeatOps l n

theorem notInvalid_smbus_read (t : Transport) (trace : List BusOp) (reg : Nat) :
    resultIsInvalidRelayNumber (smbus_read_byte_data t trace reg).1 = false := by
  cases h : t trace (BusOp.readReg reg) <;>
    simp [smbus_read_byte_data, h, resultIsInvalidRelayNumber,
      errIsInvalidRelayNumber]

theorem notInvalid_write_byte (t : Transport) (trace : List BusOp) (b : Nat) :
    resultIsInvalidRelayNumber (write_byte t trace b).1 = false := by
  cases h : t trace (BusOp.writeByte (b % 256)) <;>
    simp [write_byte, smbus_write_byte, h, resultIsInvalidRelayNumber,
      errIsInvalidRelayNumber]

theorem notInvalid_set_relay_on_unverified (t : Transport)
    (relay_num : Option Nat) (trace : List BusOp) :
    resultIsInvalidRelayNumber (set_relay_on_unverified t relay_num trace).1
      = false := by
  cases relay_num with
  | none => exact notInvalid_write_byte t trace 0x01
  | some num =>
      have hr := notInvalid_smbus_read t trace ((0x04 + num) % 256)
      unfold set_relay_on_unverified
      dsimp only
      cases h : smbus_read_byte_data t trace ((0x04 + num) % 256) with
      | mk r tr2 =>
          cases r with
          | error e => rw [h] at hr; simpa using hr
          | ok temp =>
              by_cases hs : RelayStatus.fromByte temp = RelayStatus.Off
              · simp [hs, notInvalid_write_byte]
              · simp [hs, resultIsInvalidRelayNumber]

theorem notInvalid_set_relay_off_unverified (t : Transport)
    (relay_num : Option Nat) (trace : List BusOp) :
    resultIsInvalidRelayNumber (set_relay_off_unverified t relay_num trace).1
      = false := by
  cases relay_num with
  | none => exact notInvalid_write_byte t trace 0x00
  | some num =>
      have hr := notInvalid_smbus_read t trace ((0x04 + num) % 256)
      unfold set_relay_off_unverified
      dsimp only
      cases h : smbus_read_byte_data t trace ((0x04 + num) % 256) with
      | mk r tr2 =>
          cases r with
          | error e => rw [h] at hr; simpa using hr
          | ok temp =>
              by_cases hs : RelayStatus.fromByte temp = RelayStatus.On
              · simp [hs, notInvalid_write_byte]
              · simp [hs, resultIsInvalidRelayNumber]

theorem notInvalid_get_relay_state (t : Transport) (relay_num : Option Nat)
    (trace : List BusOp) :
    resultIsInvalidRelayNumber (get_relay_state t relay_num trace).1
      = false := by
  cases relay_num with
  | none =>
      have hr := notInvalid_smbus_read t trace 0x04
      cases h : smbus_read_byte_data t trace 0x04 with
      | mk r tr2 =>
          rw [h] at hr
          cases r with
          | error e =>
              simp only [get_relay_state, h]
              simpa using hr
          | ok temp => simp [get_relay_state, h, resultIsInvalidRelayNumber]
  | some num =>
      have hr := notInvalid_smbus_read t trace ((0x04 + num) % 256)
      cases h : smbus_read_byte_data t trace ((0x04 + num) % 256) with
      | mk r tr2 =>
          rw [h] at hr
          cases r with
          | error e =>
              simp only [get_relay_state, h]
              simpa using hr
          | ok temp => simp [get_relay_state, h, resultIsInvalidRelayNumber]

theorem notInvalid_set_unverified_sel (expected : Bool) (t : Transport)
    (relay_num : Option Nat) (trace : List BusOp) :
    resultIsInvalidRelayNumber
      ((if expected then set_relay_on_unverified t relay_num trace
        else set_relay_off_unverified t relay_num trace)).1 = false := by
  cases expected
  · exact notInvalid_set_relay_off_unverified t relay_num trace
  · exact notInvalid_set_relay_on_unverified t relay_num trace

theorem notInvalid_set_verified_loop (expected : Bool) (operation : String)
    (cfg : VerificationConfig) (clock : Nat → Nat) (t : Transport)
    (relay_num : Option Nat) :
    ∀ fuel attempt trace out,
      set_verified_loop expected operation cfg clock t relay_num attempt fuel
          trace = some out →
      resultIsInvalidRelayNumber out.1 = false := by
  intro fuel
  induction fuel with
  | zero =>
      intro attempt trace out h
      simp [set_verified_loop] at h
  | succ f ih =>
      intro attempt trace out h
      simp only [set_verified_loop] at h
      split at h
      · cases h
        rfl
      · split at h
        next e tr2 heq =>
          cases h
          have := notInvalid_set_unverified_sel expected t relay_num trace
          rw [heq] at this
          simpa using this
        next u tr2 heq =>
          split at h
          next actual tr3 hg =>
            split at h
            · cases h
              rfl
            · split at h
              · split at h
                · cases h
                  rfl
                · cases h
                  rfl
              · exact ih (attempt + 1) tr3 out h
          next e tr3 hg =>
            split at h
            · cases h
              have := notInvalid_get_relay_state t relay_num tr2
              rw [hg] at this
              simpa using this
            · exact ih (attempt + 1) tr3 out h

theorem smbus_read_trace (t : Transport) (trace : List BusOp) (reg : Nat) :
    (smbus_read_byte_data t trace reg).2 = trace ++ [BusOp.readReg reg] := by
  unfold smbus_read_byte_data
  cases t trace (BusOp.readReg reg) <;> rfl

theorem write_byte_trace (t : Transport) (trace : List BusOp) (b : Nat) :
    (write_byte t trace b).2 = trace ++ [BusOp.writeByte (b % 256)] := by
  unfold write_byte smbus_write_byte
  cases t trace (BusOp.writeByte (b % 256)) <;> rfl

theorem smbus_write_data_trace (t : Transport) (trace : List BusOp)
    (reg b : Nat) :
    (smbus_write_byte_data t trace reg b).2 =
      trace ++ [BusOp.writeReg (reg % 256) (b % 256)] := by
  unfold smbus_write_byte_data
  cases t trace (BusOp.writeReg (reg % 256) (b % 256)) <;> rfl

/-- C1 (counterexample): the claim says `set_relay_on(Some(num))` with `num`
outside `1..=relay_count` returns `InvalidRelayNumber` and performs no bus
access.  On a 4-relay config (verification disabled) with a device whose
reads answer byte 0, `set_relay_on(Some(0))` and `set_relay_on(Some(5))`
instead read register `0x04 + num`, issue the toggle write, and return `Ok`. -/
theorem C1_counterexample :
    set_relay_on disabledConfig zeroClock zeroTransport (some 0) [] =
      some (Except.ok (), [BusOp.readReg 0x04, BusOp.writeByte 0x00]) ∧
    set_relay_on disabledConfig zeroClock zeroTransport (some 5) [] =
      some (Except.ok (), [BusOp.readReg 0x09, BusOp.writeByte 0x05]) :=
  ⟨rfl, rfl⟩

/-- C1 (amended): the operations taking an explicit relay number perform no
relay-number validation at all: `set_relay_on` / `set_relay_off` never
return `InvalidRelayNumber` for any `num`, and on the unverified path the
first bus operation is always the read of register `0x04 + num`, for
out-of-range `num` exactly as for in-range `num`. -/
theorem C1_no_relay_number_validation :
    (∀ (cfg : QwiicRelayConfig) (clock : Nat → Nat) (t : Transport) (num : Nat)
        (trace : List BusOp) (out : Except RelayError Unit × List BusOp),
        set_relay_on cfg clock t (some num) trace = some out →
          resultIsInvalidRelayNumber out.1 = false) ∧
    (∀ (cfg : QwiicRelayConfig) (clock : Nat → Nat) (t : Transport) (num : Nat)
        (trace : List BusOp) (out : Except RelayError Unit × List BusOp),
        set_relay_off cfg clock t (some num) trace = some out →
          resultIsInvalidRelayNumber out.1 = false) ∧
    (∀ (t : Transport) (num : Nat) (trace : List BusOp), ∃ rest,
        (set_relay_on_unverified t (some num) trace).2 =
          trace ++ BusOp.readReg ((0x04 + num) % 256) :: rest) ∧
    (∀ (t : Transport) (num : Nat) (trace : List BusOp), ∃ rest,
        (set_relay_off_unverified t (some num) trace).2 =
          trace ++ BusOp.readReg ((0x04 + num) % 256) :: rest) := by
  refine ⟨?_, ?_, ?_, ?_⟩
  · intro cfg clock t num trace out h
    unfold set_relay_on at h
    split at h
    · cases h
      exact notInvalid_set_relay_on_unverified t (some num) trace
    · exact notInvalid_set_verified_loop true "set_relay_on" cfg.verification
        clock t (some num) (cfg.verification.max_retries + 1) 0 trace out h
  · intro cfg clock t num trace out h
    unfold set_relay_off at h
    split at h
    · cases h
      exact notInvalid_set_relay_off_unverified t (some num) trace
    · exact notInvalid_set_verified_loop false "set_relay_off" cfg.verification
        clock t (some num) (cfg.verification.max_retries + 1) 0 trace out h
  · intro t num trace
    unfold set_relay_on_unverified
    dsimp only
    cases h : smbus_read_byte_data t trace ((0x04 + num) % 256) with
    | mk r tr2 =>
        have h2 := smbus_read_trace t trace ((0x04 + num) % 256)
        rw [h] at h2
        cases r with
        | error e => exact ⟨[], by simpa using h2⟩
        | ok temp =>
            by_cases hs : RelayStatus.fromByte temp = RelayStatus.Off
            · refine ⟨[BusOp.writeByte ((0x00 + num) % 256)], ?_⟩
              simp only [hs, if_pos]
              dsimp only at h2
              rw [write_byte_trace, h2]
              simp
            · exact ⟨[], by simp [hs]; simpa using h2⟩
  · intro t num trace
    unfold set_relay_off_unverified
    dsimp only
    cases h : smbus_read_byte_data t trace ((0x04 + num) % 256) with
    | mk r tr2 =>
        have h2 := smbus_read_trace t trace ((0x04 + num) % 256)
        rw [h] at h2
        cases r with
        | error e => exact ⟨[], by simpa using h2⟩
        | ok temp =>
            by_cases hs : RelayStatus.fromByte temp = RelayStatus.On
            · refine ⟨[BusOp.writeByte ((0x00 + num) % 256)], ?_⟩
              simp only [hs, if_pos]
              dsimp only at h2
              rw [write_byte_trace, h2]
              simp
            · exact ⟨[], by simp [hs]; simpa using h2⟩

/-- C1 (witness): the amended theorem applied to the concrete counterexample
run. -/
theorem C1_no_relay_number_validation_witness :
    resultIsInvalidRelayNumber
        ((Except.ok (), [BusOp.readReg 0x04, BusOp.writeByte 0x00]) :
          Except RelayError Unit × List BusOp).1 = false :=
  C1_no_relay_number_validation.1 disabledConfig zeroClock zeroTransport 0 [] _
    rfl

/-- C2 (counterexample): the claim says `set_all_relays_on` issues the
whole-board command and then, whenever verification mode is not `Disabled`
(e.g. under the default strict config), runs the per-relay read-back
verification loop for every relay `1..relay_count`, which would require at
least one register read.  The code performs zero reads: the complete bus
trace of `set_all_relays_on` is the single `TurnAllOn` command write. -/
theorem C2_counterexample :
    set_all_relays_on zeroTransport [] =
      (Except.ok (), [BusOp.writeByte 0x0B]) ∧
    readCount (set_all_relays_on zeroTransport []).2 = 0 :=
  ⟨rfl, rfl⟩

/-- C2 (amended): `set_all_relays_on` / `set_all_relays_off` issue the
whole-board all-on / all-off command exactly once and perform no
verification at all: regardless of the verification mode (they never consult
the configuration), the trace grows by exactly the one command write and
contains no new register read. -/
theorem C2_set_all_single_command_no_verification :
    ∀ (t : Transport) (trace : List BusOp),
      (set_all_relays_on t trace).2 = trace ++ [BusOp.writeByte 0x0B] ∧
      (set_all_relays_off t trace).2 = trace ++ [BusOp.writeByte 0x0A] ∧
      readCount (set_all_relays_on t trace).2 = readCount trace ∧
      readCount (set_all_relays_off t trace).2 = readCount trace := by
  intro t trace
  have h1 := write_byte_trace t trace 0x0B
  have h2 := write_byte_trace t trace 0x0A
  norm_num at h1 h2
  refine ⟨h1, h2, ?_, ?_⟩ <;>
    simp [set_all_relays_on, set_all_relays_off, h1, h2, readCount,
      List.filter_append, BusOp.isRead]

/-- C4 (counterexample): the claim says exactly the addresses `0x08..=0x77`
are accepted and everything in `0x00..=0x07` is rejected with
`InvalidI2CAddress` before any transport call.  The code accepts `0x07`: it
writes the command sequence and returns `Ok`. -/
theorem C4_counterexample :
    change_i2c_address zeroTransport [] 0x07 =
      (Except.ok (), [BusOp.writeReg 0xC7 0x07]) :=
  rfl

/-- C4 (amended): `change_i2c_address` accepts exactly `0x07..=0x78`; every
address outside that range is rejected with `InvalidConfiguration` (not
`InvalidI2CAddress`) before any transport call, and every accepted address
is transmitted as register write `0xC7` followed by the new address
(`change_i2c_address(0x08)` in particular). -/
theorem C4_change_address_policy :
    (∀ (t : Transport) (trace : List BusOp) (a : Nat),
        a < 0x07 ∨ 0x78 < a →
          change_i2c_address t trace a =
            (Except.error (RelayError.InvalidConfiguration
              ("I2C address must be between 0x07 and 0x78, got 0x" ++ hexByte a)),
              trace)) ∧
    (∀ (t : Transport) (trace : List BusOp) (a : Nat),
        0x07 ≤ a → a ≤ 0x78 →
          (change_i2c_address t trace a).2 =
            trace ++ [BusOp.writeReg 0xC7 a]) ∧
    (∀ trace, change_i2c_address zeroTransport trace 0x08 =
        (Except.ok (), trace ++ [BusOp.writeReg 0xC7 0x08])) := by
  refine ⟨?_, ?_, ?_⟩
  · intro t trace a h
    unfold change_i2c_address
    rw [if_pos h]
  · intro t trace a h1 h2
    unfold change_i2c_address
    rw [if_neg (by omega)]
    have h3 := smbus_write_data_trace t trace 0xC7 a
    have h4 : a % 256 = a := Nat.mod_eq_of_lt (by omega)
    rw [h3, h4]
  · intro trace
    unfold change_i2c_address
    rw [if_neg (by norm_num)]
    rfl

/-- C4 (witness): the amended theorem applied at the rejected input `0x79`
named by the spec. -/
theorem C4_change_address_policy_witness :
    change_i2c_address zeroTransport [] 0x79 =
      (Except.error (RelayError.InvalidConfiguration
        ("I2C address must be between 0x07 and 0x78, got 0x" ++ hexByte 0x79)),
        ([] : List BusOp)) :=
  C4_change_address_policy.1 zeroTransport [] 0x79 (by norm_num)

/-- C6: `get_relay_state(None)` performs its single read at register `0x04`,
the same register `get_version` reads for the firmware version — not at
`0x05`, the single-board status register the claim (and the code's own
`RelayState::SingleStatusVersion` constant) designates; the returned byte is
mapped to `0 = Off`, nonzero `= On`. -/
theorem C6_get_state_none_reads_register_4 :
    ∀ (t : Transport) (trace : List BusOp),
      (get_relay_state t none trace).2 = trace ++ [BusOp.readReg 0x04] ∧
      (get_version t trace).2 = trace ++ [BusOp.readReg 0x04] ∧
      ∀ b, t trace (BusOp.readReg 0x04) = I2CResp.ok b →
        get_relay_state t none trace =
          (Except.ok (RelayStatus.toBool (RelayStatus.fromByte (b % 256))),
            trace ++ [BusOp.readReg 0x04]) := by
  intro t trace
  refine ⟨?_, smbus_read_trace t trace 0x04, ?_⟩
  · have h2 := smbus_read_trace t trace 0x04
    cases h : smbus_read_byte_data t trace 0x04 with
    | mk r tr2 =>
        rw [h] at h2
        dsimp only at h2
        cases r <;> simp [get_relay_state, h, h2]
  · intro b hb
    simp [get_relay_state, smbus_read_byte_data, hb]

/-- C6 (witness): the mapping part of the theorem evaluated on a device
answering byte 0. -/
theorem C6_get_state_none_reads_register_4_witness :
    get_relay_state zeroTransport none [] =
      (Except.ok (RelayStatus.toBool (RelayStatus.fromByte (0 % 256))),
        [BusOp.readReg 0x04]) :=
  (C6_get_state_none_reads_register_4 zeroTransport []).2.2 0 rfl

/-- C9: `RelayStatus::from(u8)` yields `On` exactly for nonzero bytes;
`u8::from(RelayStatus)` yields 1 for `On` and 0 for `Off`; the byte → status
→ bool → status → byte round trip is the identity for bytes 0 and 1; and
every byte greater than 1 collapses to `On` and back to byte 1. -/
theorem C9_relay_status_conversions :
    (∀ b : Nat, RelayStatus.fromByte b = RelayStatus.On ↔ b ≠ 0) ∧
    (RelayStatus.toByte RelayStatus.On = 1 ∧
      RelayStatus.toByte RelayStatus.Off = 0) ∧
    (RelayStatus.toByte (RelayStatus.fromBool
        (RelayStatus.toBool (RelayStatus.fromByte 0))) = 0 ∧
      RelayStatus.toByte (RelayStatus.fromBool
        (RelayStatus.toBool (RelayStatus.fromByte 1))) = 1) ∧
    (∀ b : Nat, 1 < b → RelayStatus.fromByte b = RelayStatus.On ∧
      RelayStatus.toByte (RelayStatus.fromByte b) = 1) := by
  refine ⟨fun b => ?_, ⟨rfl, rfl⟩, ⟨rfl, rfl⟩, fun b hb => ?_⟩
  · by_cases h : b = 0 <;> simp [RelayStatus.fromByte, h]
  · have h : b ≠ 0 := by omega
    simp [RelayStatus.fromByte, RelayStatus.toByte, h]

/-- C9 (witness): the collapse of a byte greater than 1 at the concrete
byte 7. -/
theorem C9_relay_status_conversions_witness :
    RelayStatus.fromByte 7 = RelayStatus.On ∧
      RelayStatus.toByte (RelayStatus.fromByte 7) = 1 :=
  C9_relay_status_conversions.2.2.2 7 (by norm_num)

theorem lastIsWrite_concat_read (trace : List BusOp) (r : Nat) :
    lastIsWrite (trace ++ [BusOp.readReg r]) = false := by
  simp [lastIsWrite, List.getLast?_concat]

theorem lastIsWrite_concat_write (trace : List BusOp) (b : Nat) :
    lastIsWrite (trace ++ [BusOp.writeByte b]) = true := by
  simp [lastIsWrite, List.getLast?_concat]

theorem relayStateAfter_concat_read (num r : Nat) (l : List BusOp) :
    relayStateAfter num (l ++ [BusOp.readReg r]) = relayStateAfter num l := by
  simp [relayStateAfter, List.foldl_append]

theorem relayStateAfter_concat_write (num b : Nat) (l : List BusOp) :
    relayStateAfter num (l ++ [BusOp.writeByte b]) =
      if b = num then !(relayStateAfter num l) else relayStateAfter num l := by
  simp [relayStateAfter, List.foldl_append]

theorem writeCount_concat_read (l : List BusOp) (r : Nat) :
    writeCount (l ++ [BusOp.readReg r]) = writeCount l := by
  simp [writeCount, List.filter_append, BusOp.isWrite]

theorem writeCount_concat_write (l : List BusOp) (b : Nat) :
    writeCount (l ++ [BusOp.writeByte b]) = writeCount l + 1 := by
  simp [writeCount, List.filter_append, BusOp.isWrite]

theorem get_relay_state_eval (t : Transport) (num : Nat) (trace : List BusOp)
    (b : Nat)
    (hread : t trace (BusOp.readReg ((0x04 + num) % 256)) = I2CResp.ok b) :
    get_relay_state t (some num) trace =
      (Except.ok (RelayStatus.toBool (RelayStatus.fromByte (b % 256))),
        trace ++ [BusOp.readReg ((0x04 + num) % 256)]) := by
  simp [get_relay_state, smbus_read_byte_data, hread]

theorem get_relay_state_ok_spec (t : Transport) (relay_num : Option Nat)
    (trace : List BusOp) (actual : Bool) (tr3 : List BusOp) :
    get_relay_state t relay_num trace = (Except.ok actual, tr3) →
    ∃ b, t trace (BusOp.readReg (statusReg relay_num)) = I2CResp.ok b ∧
      tr3 = trace ++ [BusOp.readReg (statusReg relay_num)] ∧
      RelayStatus.toBool (RelayStatus.fromByte (b % 256)) = actual := by
  intro h
  cases relay_num with
  | none =>
      cases hr : t trace (BusOp.readReg 0x04) with
      | ok b =>
          refine ⟨b, hr, ?_, ?_⟩ <;>
            · simp [get_relay_state, smbus_read_byte_data, hr, statusReg] at h ⊢
              tauto
      | err => simp [get_relay_state, smbus_read_byte_data, hr] at h
  | some num =>
      cases hr : t trace (BusOp.readReg ((0x04 + num) % 256)) with
      | ok b =>
          refine ⟨b, hr, ?_, ?_⟩ <;>
            · simp [get_relay_state, smbus_read_byte_data, hr, statusReg] at h ⊢
              tauto
      | err => simp [get_relay_state, smbus_read_byte_data, hr] at h

theorem set_unverified_sel_toggles (expected : Bool) (t : Transport)
    (num : Nat) (trace : List BusOp) (b : Nat)
    (hread : t trace (BusOp.readReg ((0x04 + num) % 256)) = I2CResp.ok b)
    (hwrite : t (trace ++ [BusOp.readReg ((0x04 + num) % 256)])
        (BusOp.writeByte (num % 256)) = I2CResp.ok 0)
    (hmismatch : RelayStatus.toBool (RelayStatus.fromByte (b % 256)) =
      !expected) :
    (if expected then set_relay_on_unverified t (some num) trace
     else set_relay_off_unverified t (some num) trace) =
      (Except.ok (), trace ++ [BusOp.readReg ((0x04 + num) % 256),
        BusOp.writeByte (num % 256)]) := by
  cases expected with
  | false =>
      have hOn : RelayStatus.fromByte (b % 256) = RelayStatus.On := by
        cases hfb : RelayStatus.fromByte (b % 256) <;>
          simp [hfb, RelayStatus.toBool] at hmismatch ⊢
      simp [set_relay_off_unverified, smbus_read_byte_data, hread, hOn,
        write_byte, smbus_write_byte, hwrite]
  | true =>
      have hOff : RelayStatus.fromByte (b % 256) = RelayStatus.Off := by
        cases hfb : RelayStatus.fromByte (b % 256) <;>
          simp [hfb, RelayStatus.toBool] at hmismatch ⊢
      simp [set_relay_on_unverified, smbus_read_byte_data, hread, hOff,
        write_byte, smbus_write_byte, hwrite]

theorem get_relay_state_eval_err (t : Transport) (num : Nat)
    (trace : List BusOp)
    (hread : t trace (BusOp.readReg ((0x04 + num) % 256)) = I2CResp.err) :
    get_relay_state t (some num) trace =
      (Except.error RelayError.I2C,
        trace ++ [BusOp.readReg ((0x04 + num) % 256)]) := by
  simp [get_relay_state, smbus_read_byte_data, hread]

theorem mismatch_exhaustion_loop (expected : Bool) (operation : String)
    (cfg : VerificationConfig) (clock : Nat → Nat) (t : Transport) (num b : Nat)
    (hclock : ∀ k, clock k ≤ cfg.timeout_ms)
    (hread : ∀ tr reg, t tr (BusOp.readReg reg) = I2CResp.ok b)
    (hwrite : ∀ tr w, t tr (BusOp.writeByte w) = I2CResp.ok 0)
    (hmismatch : RelayStatus.toBool (RelayStatus.fromByte (b % 256)) =
      !expected) :
    ∀ fuel attempt trace, attempt + fuel = cfg.max_retries + 1 → 1 ≤ fuel →
      set_verified_loop expected operation cfg clock t (some num) attempt fuel
          trace =
        some (Except.error (RelayError.StateVerificationFailed (some num)
            expected (!expected) ((cfg.max_retries + 1) % 256)),
          trace ++ repeatOps (attemptOps num) fuel) := by
  intro fuel
  induction fuel with
  | zero => intro attempt trace h h1; omega
  | succ f ih =>
      intro attempt trace hsum _
      have hto : ¬ cfg.timeout_ms < clock attempt := by
        have := hclock attempt; omega
      have hunv := set_unverified_sel_toggles expected t num trace b
        (hread trace _) (hwrite _ _) hmismatch
      have hget := get_relay_state_eval t num
        (trace ++ [BusOp.readReg ((0x04 + num) % 256),
          BusOp.writeByte (num % 256)]) b (hread _ _)
      rw [hmismatch] at hget
      simp only [set_verified_loop]
      rw [if_neg hto, hunv]
      dsimp only
      rw [hget]
      dsimp only
      rw [if_neg (by cases expected <;> simp)]
      cases f with
      | zero =>
          have hat : attempt = cfg.max_retries := by omega
          rw [if_pos hat, ite_self]
          subst hat
          simp [repeatOps, attemptOps, List.append_assoc]
      | succ g =>
          have hat : ¬ attempt = cfg.max_retries := by omega
          rw [if_neg hat]
          rw [ih (attempt + 1) _ (by omega) (by omega)]
          simp [repeatOps, attemptOps, List.append_assoc]

theorem verify_read_error_loop (operation : String) (cfg : VerificationConfig)
    (clock : Nat → Nat) (num : Nat)
    (hclock : ∀ k, clock k ≤ cfg.timeout_ms) :
    ∀ fuel attempt trace, attempt + fuel = cfg.max_retries + 1 → 1 ≤ fuel →
      lastIsWrite trace = false →
      set_verified_loop true operation cfg clock verifyReadFailTransport
          (some num) attempt fuel trace =
        some (Except.error RelayError.I2C,
          trace ++ repeatOps (attemptOps num) fuel) := by
  intro fuel
  induction fuel with
  | zero => intro attempt trace h h1 h2; omega
  | succ f ih =>
      intro attempt trace hsum _ hlast
      have hto : ¬ cfg.timeout_ms < clock attempt := by
        have := hclock attempt; omega
      have hread0 : verifyReadFailTransport trace
          (BusOp.readReg ((0x04 + num) % 256)) = I2CResp.ok 0 := by
        simp [verifyReadFailTransport, hlast]
      have hunv := set_unverified_sel_toggles true verifyReadFailTransport num
        trace 0 hread0 rfl (by simp [RelayStatus.fromByte, RelayStatus.toBool])
      simp only [if_true] at hunv
      have hreaderr : verifyReadFailTransport
          (trace ++ [BusOp.readReg ((0x04 + num) % 256),
            BusOp.writeByte (num % 256)])
          (BusOp.readReg ((0x04 + num) % 256)) = I2CResp.err := by
        have heq : trace ++ [BusOp.readReg ((0x04 + num) % 256),
            BusOp.writeByte (num % 256)] =
          (trace ++ [BusOp.readReg ((0x04 + num) % 256)]) ++
            [BusOp.writeByte (num % 256)] := by simp
        rw [heq]
        show (if lastIsWrite ((trace ++ [BusOp.readReg ((0x04 + num) % 256)]) ++
            [BusOp.writeByte (num % 256)]) then I2CResp.err else I2CResp.ok 0) =
          I2CResp.err
        rw [lastIsWrite_concat_write]
        rfl
      have hget := get_relay_state_eval_err verifyReadFailTransport num
        (trace ++ [BusOp.readReg ((0x04 + num) % 256),
          BusOp.writeByte (num % 256)]) hreaderr
      simp only [set_verified_loop]
      rw [if_neg hto]
      simp only [eq_self_iff_true, if_true, hunv, hget]
      cases f with
      | zero =>
          have hat : attempt = cfg.max_retries := by omega
          rw [if_pos hat]
          simp [repeatOps, attemptOps, List.append_assoc]
      | succ g =>
          have hat : ¬ attempt = cfg.max_retries := by omega
          rw [if_neg hat]
          rw [ih (attempt + 1) _ (by omega) (by omega)
            (by
              have : trace ++ [BusOp.readReg ((0x04 + num) % 256),
                  BusOp.writeByte (num % 256)] ++
                  [BusOp.readReg ((0x04 + num) % 256)] =
                (trace ++ [BusOp.readReg ((0x04 + num) % 256),
                  BusOp.writeByte (num % 256)]) ++
                  [BusOp.readReg ((0x04 + num) % 256)] := by simp
              rw [lastIsWrite_concat_read])]
          simp [repeatOps, attemptOps, List.append_assoc]

theorem set_verified_loop_mode_irrelevant (expected : Bool)
    (operation : String) (cfg : VerificationConfig) (m1 m2 : VerificationMode)
    (clock : Nat → Nat) (t : Transport) (relay_num : Option Nat) :
    ∀ fuel attempt trace,
      set_verified_loop expected operation { cfg with mode := m1 } clock t
          relay_num attempt fuel trace =
        set_verified_loop expected operation { cfg with mode := m2 } clock t
          relay_num attempt fuel trace := by
  intro fuel
  induction fuel with
  | zero => intro attempt trace; rfl
  | succ f ih =>
      intro attempt trace
      simp only [set_verified_loop]
      by_cases hto : cfg.timeout_ms < clock attempt
      · rw [if_pos hto, if_pos hto]
      · rw [if_neg hto, if_neg hto]
        cases hunv : (if expected then set_relay_on_unverified t relay_num trace
            else set_relay_off_unverified t relay_num trace) with
        | mk r tr2 =>
            cases r with
            | error e => rfl
            | ok u =>
                cases hget : get_relay_state t relay_num tr2 with
                | mk rg tr3 =>
                    cases rg with
                    | error e =>
                        by_cases hat : attempt = cfg.max_retries
                        · simp [hget, hat]
                        · simp [hget, hat, ih]
                    | ok actual =>
                        by_cases hac : actual = expected
                        · simp [hget, hac]
                        · by_cases hat : attempt = cfg.max_retries
                          · simp [hget, hac, hat, ite_self]
                          · simp [hget, hac, hat, ih]

theorem ok_confirming_read_loop (expected : Bool) (operation : String)
    (cfg : VerificationConfig) (clock : Nat → Nat) (t : Transport)
    (relay_num : Option Nat) :
    ∀ fuel attempt trace out_trace,
      set_verified_loop expected operation cfg clock t relay_num attempt fuel
          trace = some (Except.ok (), out_trace) →
      confirmingRead t relay_num out_trace expected := by
  intro fuel
  induction fuel with
  | zero =>
      intro attempt trace out h
      simp [set_verified_loop] at h
  | succ f ih =>
      intro attempt trace out h
      simp only [set_verified_loop] at h
      split at h
      · simp at h
      · split at h
        next e tr2 heq => simp at h
        next u tr2 heq =>
          split at h
          next actual tr3 hget =>
            split at h
            next hac =>
              simp only [Option.some.injEq, Prod.mk.injEq, true_and] at h
              obtain ⟨b, hb, htr3, hmap⟩ :=
                get_relay_state_ok_spec t relay_num tr2 actual _ hget
              rw [← h]
              exact ⟨tr2, b, htr3, hb, by rw [hmap, hac]⟩
            next hac =>
              split at h
              · split at h <;> simp at h
              · exact ih (attempt + 1) tr3 out h
          next e tr3 hget =>
            split at h
            · simp at h
            · exact ih (attempt + 1) tr3 out h

/-- C3 (counterexample): the claim says a transport error in the toggle
write on a non-final attempt is retried after `retry_delay`.  With
`max_retries = 1` (so attempt 0 is not the last permitted attempt) and a
device that fails every write, the engine instead propagates the transport
error immediately from attempt 0: exactly one pre-read and one write are
issued. -/
theorem C3_counterexample :
    set_relay_on_verified
        { mode := VerificationMode.Strict, max_retries := 1,
          retry_delay_ms := 50, verification_delay_ms := 20,
          timeout_ms := 1000 } zeroClock writeFailTransport (some 1) [] =
      some (Except.error RelayError.I2C,
        [BusOp.readReg 0x05, BusOp.writeByte 0x01]) :=
  rfl

/-- C3 (amended): in the verified set loop, only transport errors raised by
the verification read-back are retried — they propagate exactly when they
occur on the last permitted attempt; a transport error raised by the toggle
write (or its pre-read) inside `set_relay_on_unverified` propagates
immediately on every attempt, including non-final ones. -/
theorem C3_transport_error_policy :
    (∀ (cfg : VerificationConfig) (clock : Nat → Nat) (num : Nat)
        (trace : List BusOp),
        clock 0 ≤ cfg.timeout_ms →
        set_relay_on_verified cfg clock writeFailTransport (some num) trace =
          some (Except.error RelayError.I2C,
            trace ++ [BusOp.readReg ((0x04 + num) % 256),
              BusOp.writeByte (num % 256)])) ∧
    (∀ (cfg : VerificationConfig) (clock : Nat → Nat) (num : Nat),
        (∀ k, clock k ≤ cfg.timeout_ms) →
        set_relay_on_verified cfg clock verifyReadFailTransport (some num) [] =
          some (Except.error RelayError.I2C,
            repeatOps (attemptOps num) (cfg.max_retries + 1))) := by
  constructor
  · intro cfg clock num trace hclock
    have hunv : set_relay_on_unverified writeFailTransport (some num) trace =
        (Except.error RelayError.I2C,
          trace ++ [BusOp.readReg ((0x04 + num) % 256),
            BusOp.writeByte (num % 256)]) := by
      simp [set_relay_on_unverified, smbus_read_byte_data, write_byte,
        smbus_write_byte, writeFailTransport, RelayStatus.fromByte]
    unfold set_relay_on_verified
    simp only [set_verified_loop]
    rw [if_neg (by omega)]
    simp [eq_self_iff_true, if_true, hunv]
  · intro cfg clock num hclock
    have := verify_read_error_loop "set_relay_on" cfg clock num hclock
      (cfg.max_retries + 1) 0 [] (by omega) (by omega) rfl
    simpa [set_relay_on_verified] using this

/-- C3 (witness): the write-error conjunct at a concrete configuration with
`max_retries = 3` and relay 2. -/
theorem C3_transport_error_policy_witness :
    set_relay_on_verified
        { mode := VerificationMode.Strict, max_retries := 3,
          retry_delay_ms := 50, verification_delay_ms := 20,
          timeout_ms := 1000 } zeroClock writeFailTransport (some 2) [] =
      some (Except.error RelayError.I2C,
        [BusOp.readReg 0x06, BusOp.writeByte 0x02]) :=
  C3_transport_error_policy.1
    { mode := VerificationMode.Strict, max_retries := 3,
      retry_delay_ms := 50, verification_delay_ms := 20, timeout_ms := 1000 }
    zeroClock 2 [] (Nat.zero_le _)

/-- C5 (counterexample): the claim says the `attempts` field always equals
`max_retries + 1`.  `attempts` is `u8` in the source and is computed as
`attempt + 1`, so at the legal configuration `max_retries = 255` the final
attempt wraps `255 + 1` to 0: the engine returns `StateVerificationFailed`
with `attempts = 0`, not `256 = max_retries + 1`. -/
theorem C5_counterexample :
    (set_relay_on_verified
        { mode := VerificationMode.Strict, max_retries := 255,
          retry_delay_ms := 50, verification_delay_ms := 20,
          timeout_ms := 1000 } zeroClock zeroTransport (some 1) [] =
      some (Except.error
          (RelayError.StateVerificationFailed (some 1) true false 0),
        repeatOps (attemptOps 1) 256)) ∧ (0 : Nat) ≠ 255 + 1 := by
  constructor
  · have := mismatch_exhaustion_loop true "set_relay_on"
      { mode := VerificationMode.Strict, max_retries := 255,
        retry_delay_ms := 50, verification_delay_ms := 20, timeout_ms := 1000 }
      zeroClock zeroTransport 1 0 (fun _ => Nat.zero_le _) (fun _ _ => rfl)
      (fun _ _ => rfl) (by simp [RelayStatus.fromByte, RelayStatus.toBool])
      256 0 [] (by show 0 + 256 = 255 + 1; omega) (by omega)
    simpa [set_relay_on_verified] using this
  · decide

/-- C5 (amended): when the timeout is never exceeded and every attempt reads
back the opposite of the commanded state (no transport error), the verified
set engine exhausts all `max_retries + 1` attempts and returns
`StateVerificationFailed` whose `attempts` field is `(max_retries + 1) % 256`
— the u8 wrap of `attempt + 1`, equal to `max_retries + 1` whenever
`max_retries ≤ 254`, so with `max_retries = 0` the field is 1 — stated for
`set_relay_on_verified` (device always reads 0) and `set_relay_off_verified`
(device always reads 1). -/
theorem C5_mismatch_exhaustion_attempts :
    (∀ (cfg : VerificationConfig) (clock : Nat → Nat) (t : Transport)
        (num : Nat) (trace : List BusOp),
        (∀ k, clock k ≤ cfg.timeout_ms) →
        (∀ tr reg, t tr (BusOp.readReg reg) = I2CResp.ok 0) →
        (∀ tr w, t tr (BusOp.writeByte w) = I2CResp.ok 0) →
        set_relay_on_verified cfg clock t (some num) trace =
          some (Except.error (RelayError.StateVerificationFailed (some num)
              true false ((cfg.max_retries + 1) % 256)),
            trace ++ repeatOps (attemptOps num) (cfg.max_retries + 1))) ∧
    (∀ (cfg : VerificationConfig) (clock : Nat → Nat) (t : Transport)
        (num : Nat) (trace : List BusOp),
        (∀ k, clock k ≤ cfg.timeout_ms) →
        (∀ tr reg, t tr (BusOp.readReg reg) = I2CResp.ok 1) →
        (∀ tr w, t tr (BusOp.writeByte w) = I2CResp.ok 0) →
        set_relay_off_verified cfg clock t (some num) trace =
          some (Except.error (RelayError.StateVerificationFailed (some num)
              false true ((cfg.max_retries + 1) % 256)),
            trace ++ repeatOps (attemptOps num) (cfg.max_retries + 1))) := by
  constructor
  · intro cfg clock t num trace hclock hread hwrite
    have := mismatch_exhaustion_loop true "set_relay_on" cfg clock t num 0
      hclock hread hwrite (by simp [RelayStatus.fromByte, RelayStatus.toBool])
      (cfg.max_retries + 1) 0 trace (by omega) (by omega)
    simpa [set_relay_on_verified] using this
  · intro cfg clock t num trace hclock hread hwrite
    have := mismatch_exhaustion_loop false "set_relay_off" cfg clock t num 1
      hclock hread hwrite (by simp [RelayStatus.fromByte, RelayStatus.toBool])
      (cfg.max_retries + 1) 0 trace (by omega) (by omega)
    simpa [set_relay_off_verified] using this

/-- C5 (witness): `max_retries = 0` and a device always reporting the
opposite of the commanded state yield `StateVerificationFailed` with
`attempts = 1`. -/
theorem C5_mismatch_exhaustion_attempts_witness :
    set_relay_on_verified
        { mode := VerificationMode.Strict, max_retries := 0,
          retry_delay_ms := 50, verification_delay_ms := 20,
          timeout_ms := 1000 } zeroClock zeroTransport (some 1) [] =
      some (Except.error
          (RelayError.StateVerificationFailed (some 1) true false 1),
        [] ++ repeatOps (attemptOps 1) 1) :=
  C5_mismatch_exhaustion_attempts.1
    { mode := VerificationMode.Strict, max_retries := 0,
      retry_delay_ms := 50, verification_delay_ms := 20, timeout_ms := 1000 }
    zeroClock zeroTransport 1 [] (fun _ => Nat.zero_le _) (fun _ _ => rfl)
    (fun _ _ => rfl)

/-- C8: with identical numeric policy fields the verified engine behaves
identically under `Strict` and `Lenient`: `set_relay_on` / `set_relay_off`
produce the same result and trace for every transport, and under `Lenient`
retry exhaustion still returns the `StateVerificationFailed` error (whose
u8 `attempts` payload is the wrapped `(k + 1) % 256`) rather than
succeeding silently. -/
theorem C8_lenient_strict_equivalent :
    (∀ (cfg : QwiicRelayConfig) (clock : Nat → Nat) (t : Transport)
        (relay_num : Option Nat) (trace : List BusOp),
        set_relay_on
            { cfg with verification :=
                { cfg.verification with mode := VerificationMode.Strict } }
            clock t relay_num trace =
          set_relay_on
            { cfg with verification :=
                { cfg.verification with mode := VerificationMode.Lenient } }
            clock t relay_num trace) ∧
    (∀ (cfg : QwiicRelayConfig) (clock : Nat → Nat) (t : Transport)
        (relay_num : Option Nat) (trace : List BusOp),
        set_relay_off
            { cfg with verification :=
                { cfg.verification with mode := VerificationMode.Strict } }
            clock t relay_num trace =
          set_relay_off
            { cfg with verification :=
                { cfg.verification with mode := VerificationMode.Lenient } }
            clock t relay_num trace) ∧
    (∀ (k rd vd tm num : Nat) (trace : List BusOp),
        set_relay_on_verified
            { mode := VerificationMode.Lenient, max_retries := k,
              retry_delay_ms := rd, verification_delay_ms := vd,
              timeout_ms := tm } zeroClock zeroTransport (some num) trace =
          some (Except.error (RelayError.StateVerificationFailed (some num)
              true false ((k + 1) % 256)),
            trace ++ repeatOps (attemptOps num) (k + 1))) := by
  refine ⟨?_, ?_, ?_⟩
  · intro cfg clock t relay_num trace
    simp only [set_relay_on, set_relay_on_verified]
    exact set_verified_loop_mode_irrelevant true "set_relay_on"
      cfg.verification VerificationMode.Strict VerificationMode.Lenient clock
      t relay_num _ 0 trace
  · intro cfg clock t relay_num trace
    simp only [set_relay_off, set_relay_off_verified]
    exact set_verified_loop_mode_irrelevant false "set_relay_off"
      cfg.verification VerificationMode.Strict VerificationMode.Lenient clock
      t relay_num _ 0 trace
  · intro k rd vd tm num trace
    have := mismatch_exhaustion_loop true "set_relay_on"
      { mode := VerificationMode.Lenient, max_retries := k,
        retry_delay_ms := rd, verification_delay_ms := vd, timeout_ms := tm }
      zeroClock zeroTransport num 0 (fun _ => Nat.zero_le _) (fun _ _ => rfl)
      (fun _ _ => rfl) (by simp [RelayStatus.fromByte, RelayStatus.toBool])
      (k + 1) 0 trace (by show 0 + (k + 1) = k + 1; omega) (by omega)
    simpa [set_relay_on_verified] using this

/-- C10: whenever `set_relay_on` (respectively `set_relay_off`) runs with
verification mode not `Disabled` and returns `Ok`, the final bus operation
of the run is a read of the status register whose response byte maps to the
commanded state (nonzero for on, zero for off): the verified path never
succeeds without a confirming read having matched. -/
theorem C10_verified_ok_confirming_read :
    ∀ (cfg : QwiicRelayConfig) (clock : Nat → Nat) (t : Transport)
      (relay_num : Option Nat) (trace out_trace : List BusOp),
      cfg.verification.mode ≠ VerificationMode.Disabled →
      (set_relay_on cfg clock t relay_num trace =
          some (Except.ok (), out_trace) →
        confirmingRead t relay_num out_trace true) ∧
      (set_relay_off cfg clock t relay_num trace =
          some (Except.ok (), out_trace) →
        confirmingRead t relay_num out_trace false) := by
  intro cfg clock t relay_num trace out hmode
  constructor
  · intro h
    unfold set_relay_on at h
    cases hm : cfg.verification.mode with
    | Disabled => exact absurd hm hmode
    | Strict =>
        rw [hm] at h
        simp only [set_relay_on_verified] at h
        exact ok_confirming_read_loop true "set_relay_on" cfg.verification
          clock t relay_num (cfg.verification.max_retries + 1) 0 trace out h
    | Lenient =>
        rw [hm] at h
        simp only [set_relay_on_verified] at h
        exact ok_confirming_read_loop true "set_relay_on" cfg.verification
          clock t relay_num (cfg.verification.max_retries + 1) 0 trace out h
  · intro h
    unfold set_relay_off at h
    cases hm : cfg.verification.mode with
    | Disabled => exact absurd hm hmode
    | Strict =>
        rw [hm] at h
        simp only [set_relay_off_verified] at h
        exact ok_confirming_read_loop false "set_relay_off" cfg.verification
          clock t relay_num (cfg.verification.max_retries + 1) 0 trace out h
    | Lenient =>
        rw [hm] at h
        simp only [set_relay_off_verified] at h
        exact ok_confirming_read_loop false "set_relay_off" cfg.verification
          clock t relay_num (cfg.verification.max_retries + 1) 0 trace out h

/-- C10 (witness): a successful strict-mode run on the echo device ends in a
confirming read. -/
theorem C10_verified_ok_confirming_read_witness :
    confirmingRead echoTransport (some 1)
      [BusOp.readReg 0x05, BusOp.writeByte 0x01, BusOp.readReg 0x05] true :=
  (C10_verified_ok_confirming_read defaultConfig zeroClock echoTransport
      (some 1) []
      [BusOp.readReg 0x05, BusOp.writeByte 0x01, BusOp.readReg 0x05]
      (by decide)).1 rfl

/-- C7: a set operation whose pre-read already shows the desired state
issues no toggle write (the attempt appends only the pre-read); and against
the toggle-echo device, `set(num, On)` twice in a row from any starting
history leaves the relay on — the same final state as one call — with at
most one toggle written by the first call and none by the second. -/
theorem C7_idempotent_set_on :
    (∀ (t : Transport) (num : Nat) (trace : List BusOp) (b : Nat),
        t trace (BusOp.readReg ((0x04 + num) % 256)) = I2CResp.ok b →
        b % 256 ≠ 0 →
        set_relay_on_unverified t (some num) trace =
          (Except.ok (), trace ++ [BusOp.readReg ((0x04 + num) % 256)])) ∧
    (∀ (num : Nat) (trace : List BusOp), num ≤ 4 →
        (set_relay_on_unverified echoTransport (some num) trace).1 =
          Except.ok () ∧
        relayStateAfter num
          ((set_relay_on_unverified echoTransport (some num) trace).2) =
          true ∧
        set_relay_on_unverified echoTransport (some num)
            ((set_relay_on_unverified echoTransport (some num) trace).2) =
          (Except.ok (),
            (set_relay_on_unverified echoTransport (some num) trace).2 ++
              [BusOp.readReg ((0x04 + num) % 256)]) ∧
        writeCount ((set_relay_on_unverified echoTransport (some num) trace).2)
          ≤ writeCount trace + 1) := by
  constructor
  · intro t num trace b hread hb
    simp [set_relay_on_unverified, smbus_read_byte_data, hread,
      RelayStatus.fromByte, hb]
  · intro num trace hn
    have hreg : (0x04 + num) % 256 = 4 + num := Nat.mod_eq_of_lt (by omega)
    have hnum : num % 256 = num := Nat.mod_eq_of_lt (by omega)
    have hread : ∀ tr : List BusOp,
        echoTransport tr (BusOp.readReg ((0x04 + num) % 256)) =
          I2CResp.ok (if relayStateAfter num tr then 1 else 0) := by
      intro tr
      simp [echoTransport, hreg]
    cases hstate : relayStateAfter num trace with
    | true =>
        have h1 : set_relay_on_unverified echoTransport (some num) trace =
            (Except.ok (), trace ++ [BusOp.readReg ((0x04 + num) % 256)]) := by
          simp [set_relay_on_unverified, smbus_read_byte_data, hread, hstate,
            RelayStatus.fromByte]
        have hs1 : relayStateAfter num
            (trace ++ [BusOp.readReg ((0x04 + num) % 256)]) = true := by
          rw [relayStateAfter_concat_read, hstate]
        have h2 : set_relay_on_unverified echoTransport (some num)
            (trace ++ [BusOp.readReg ((0x04 + num) % 256)]) =
            (Except.ok (), trace ++ [BusOp.readReg ((0x04 + num) % 256)] ++
              [BusOp.readReg ((0x04 + num) % 256)]) := by
          simp [set_relay_on_unverified, smbus_read_byte_data, hread, hs1,
            RelayStatus.fromByte]
        refine ⟨by simp [h1], by simp [h1, hs1], by simp [h1, h2], ?_⟩
        rw [h1]
        simp [writeCount_concat_read]
    | false =>
        have h1 : set_relay_on_unverified echoTransport (some num) trace =
            (Except.ok (), trace ++ [BusOp.readReg ((0x04 + num) % 256),
              BusOp.writeByte num]) := by
          simp [set_relay_on_unverified, smbus_read_byte_data, hread, hstate,
            RelayStatus.fromByte, write_byte, smbus_write_byte, echoTransport,
            hnum, hreg, Nat.add_sub_cancel_left]
        have heq : trace ++ [BusOp.readReg ((0x04 + num) % 256),
            BusOp.writeByte num] =
          (trace ++ [BusOp.readReg ((0x04 + num) % 256)]) ++
            [BusOp.writeByte num] := by simp
        have hs1 : relayStateAfter num
            (trace ++ [BusOp.readReg ((0x04 + num) % 256),
              BusOp.writeByte num]) = true := by
          rw [heq, relayStateAfter_concat_write, relayStateAfter_concat_read,
            hstate]
          simp
        have h2 : set_relay_on_unverified echoTransport (some num)
            (trace ++ [BusOp.readReg ((0x04 + num) % 256),
              BusOp.writeByte num]) =
            (Except.ok (), trace ++ [BusOp.readReg ((0x04 + num) % 256),
              BusOp.writeByte num] ++
              [BusOp.readReg ((0x04 + num) % 256)]) := by
          simp [set_relay_on_unverified, smbus_read_byte_data, hread, hs1,
            RelayStatus.fromByte]
        have hw1 : writeCount (trace ++ [BusOp.readReg ((0x04 + num) % 256),
            BusOp.writeByte num]) = writeCount trace + 1 := by
          rw [heq, writeCount_concat_write, writeCount_concat_read]
        refine ⟨by simp [h1], by simp [h1, hs1], by simp [h1, h2], ?_⟩
        rw [h1]
        simp [hw1]

/-- C7 (witness): the skip conjunct at relay 1 against the echo device whose
history already shows the relay on, and the two-call conjunct at relay 1
from the empty history. -/
theorem C7_idempotent_set_on_witness :
    (set_relay_on_unverified echoTransport (some 1) [BusOp.writeByte 1] =
      (Except.ok (), [BusOp.writeByte 1] ++ [BusOp.readReg 0x05])) ∧
    ((set_relay_on_unverified echoTransport (some 1) []).1 = Except.ok () ∧
      relayStateAfter 1 ((set_relay_on_unverified echoTransport (some 1) []).2)
        = true ∧
      set_relay_on_unverified echoTransport (some 1)
          ((set_relay_on_unverified echoTransport (some 1) []).2) =
        (Except.ok (),
          (set_relay_on_unverified echoTransport (some 1) []).2 ++
            [BusOp.readReg 0x05]) ∧
      writeCount ((set_relay_on_unverified echoTransport (some 1) []).2) ≤
        writeCount [] + 1) :=
  ⟨C7_idempotent_set_on.1 echoTransport 1 [BusOp.writeByte 1] 1 rfl
      (by norm_num),
    C7_idempotent_set_on.2 1 [] (by norm_num)⟩
